import Mathlib

/-!
# Toy Store backend — verification of the spec's claims

Shallow embedding of the repository (src/main.py, src/schemas.py).

Conventions of the embedding:
* Python floats carry only exact decimal values here, so they are embedded
  as `Rat`.
* A JSON request body is embedded as a structure of `Option` fields
  (`none` = field absent from the payload).
* FastAPI parses the body into the request model (`CreateToy`,
  `CreateOrder`) before the handler body runs; a parse failure is HTTP 422.
* An exception that escapes a handler body (e.g. a pydantic
  `ValidationError` raised by `Toy(**payload.model_dump())`) is surfaced
  by the ASGI stack as HTTP 500; `HTTPException(code)` is surfaced as
  `code`.
* `database.py` is not part of `src/`; its operations (`create_document`,
  `get_documents`) and the Mongo driver calls (`count_documents`,
  `find_one`, `$regex` filters, `ObjectId`) are modelled from the spec,
  each at its definition.
* The store handle `db` being `None` ("store unavailable") is the boolean
  `dbUp = false`.
-/

/-- HTTP outcome of one request: `ok body` is the 2xx success body,
`error n` is an HTTP error with status `n`. -/
inductive ApiResult (α : Type) where
  | ok : α → ApiResult α
  | error : Nat → ApiResult α
deriving DecidableEq, Repr

/-- schemas.py `Toy` (pydantic model): the validated toy document shape.
Field constraints are checked by `Toy.of`. -/
structure Toy where
  name : String
  description : Option String
  price : Rat
  category : String
  image : Option String
  rating : Rat
  in_stock : Bool
deriving DecidableEq, Repr

/-- A persisted toy document: a `Toy` plus the store-generated `_id`
(stringified for transport, as the handlers do). -/
structure ToyDoc extends Toy where
  _id : String
deriving DecidableEq, Repr

/-- schemas.py `OrderItem` (pydantic model). `quantity` is an integer. -/
structure OrderItem where
  toy_id : String
  name : String
  price : Rat
  quantity : Int
  image : Option String
deriving DecidableEq, Repr

/-- schemas.py `Order` (pydantic model); constraints are checked by
`Order.of`. -/
structure Order where
  customer_name : String
  customer_email : String
  customer_address : String
  items : List OrderItem
  subtotal : Rat
  shipping : Rat
  total : Rat
  notes : Option String
deriving DecidableEq, Repr

/-- A persisted order document. -/
structure OrderDoc extends Order where
  _id : String
deriving DecidableEq, Repr

/-- Modelled from the spec: the document store owns the `toy` and `order`
collections ("two collections, `toy` and `order`, documents as described
in §3, with store-generated primary identifiers"). `nextId` drives id
generation. -/
structure Store where
  toys : List ToyDoc
  orders : List OrderDoc
  nextId : Nat
deriving DecidableEq, Repr

/-- Modelled from the spec: identifiers are "store-generated" and
"opaque", stringified for transport; we generate them from a counter. -/
def genId (n : Nat) : String :=
  Nat.repr n

/-- Modelled from the spec: `database.py`'s
`create_document(collection, doc) -> id` "inserts one document, returns
the generated identifier as an opaque string" — here for the `toy`
collection. -/
def create_document_toy (st : Store) (t : Toy) : String × Store :=
  (genId st.nextId,
   { st with toys := st.toys ++ [{ t with _id := genId st.nextId }],
             nextId := st.nextId + 1 })

/-- Modelled from the spec: `create_document` for the `order`
collection. -/
def create_document_order (st : Store) (o : Order) : String × Store :=
  (genId st.nextId,
   { st with orders := st.orders ++ [{ o with _id := genId st.nextId }],
             nextId := st.nextId + 1 })

/-- main.py `CreateToy` (FastAPI request model): `name`, `price`,
`category` required; `description`/`image` optional; `rating` defaults to
4.5; `in_stock` defaults to true. No numeric constraints here. -/
structure CreateToy where
  name : String
  description : Option String
  price : Rat
  category : String
  image : Option String
  rating : Rat
  in_stock : Bool
deriving DecidableEq, Repr

/-- Raw JSON body of a create-toy request: each field may be absent. -/
structure ToyPayload where
  name : Option String
  description : Option String
  price : Option Rat
  category : Option String
  image : Option String
  rating : Option Rat
  in_stock : Option Bool
deriving DecidableEq, Repr

/-- FastAPI's parsing of the request body into `CreateToy`: the required
fields `name`, `price`, `category` must be present; defaults fill the
rest. Failure is surfaced as HTTP 422 by the framework. -/
def parseCreateToy (p : ToyPayload) : Except Unit CreateToy :=
  match p.name, p.price, p.category with
  | some n, some pr, some c =>
      Except.ok { name := n, description := p.description, price := pr,
                  category := c, image := p.image,
                  rating := p.rating.getD (Rat.divInt 9 2),
                  in_stock := p.in_stock.getD true }
  | _, _, _ => Except.error ()

/-- schemas.py `Toy(**payload.model_dump())`: pydantic re-validates the
fields against `Toy`'s constraints — `price ≥ 0`, `rating` in `[0, 5]`.
`name` and `category` are unconstrained strings (empty allowed). -/
def Toy.of (c : CreateToy) : Except Unit Toy :=
  if 0 ≤ c.price ∧ 0 ≤ c.rating ∧ c.rating ≤ 5 then
    Except.ok { name := c.name, description := c.description,
                price := c.price, category := c.category, image := c.image,
                rating := c.rating, in_stock := c.in_stock }
  else Except.error ()

/-- main.py `create_toy` (`POST /api/toys`), whole request pipeline:
FastAPI body parsing (422 on failure), then the handler body — `db is
None` check (503), `Toy(**payload.model_dump())` (an escaping
`ValidationError` is HTTP 500), then `create_document("toy", toy)` and
`{"_id": inserted_id}` with status 201. Returns the HTTP outcome and the
store after the request. -/
def create_toy (dbUp : Bool) (st : Store) (payload : ToyPayload) :
    ApiResult String × Store :=
  match parseCreateToy payload with
  | Except.error _ => (ApiResult.error 422, st)
  | Except.ok p =>
    if dbUp = false then (ApiResult.error 503, st)
    else
      match Toy.of p with
      | Except.error _ => (ApiResult.error 500, st)
      | Except.ok t =>
          let r := create_document_toy st t
          (ApiResult.ok r.1, r.2)

/-- Modelled from the spec (bson `ObjectId` is an external collaborator):
"fails with `InvalidIdentifier` if `id` is not a well-formed identifier
for the store's id type" — a well-formed Mongo ObjectId string is 24 hex
characters. -/
def isHexDigit (c : Char) : Bool :=
  (decide ('0' ≤ c) && decide (c ≤ '9')) ||
  (decide ('a' ≤ c) && decide (c ≤ 'f')) ||
  (decide ('A' ≤ c) && decide (c ≤ 'F'))

/-- Well-formedness of a store identifier (`ObjectId(toy_id)` succeeds). -/
def isValidObjectId (s : String) : Bool :=
  s.length == 24 && s.toList.all isHexDigit

/-- main.py `get_toy` (`GET /api/toys/{toy_id}`): 503 if `db is None`,
400 if `ObjectId(toy_id)` fails, then `find_one({"_id": obj_id})` — 404
when absent, otherwise the document. The lookup is modelled from the
spec's gateway contract (`findById`). -/
def get_toy (dbUp : Bool) (st : Store) (toy_id : String) : ApiResult ToyDoc :=
  if dbUp = false then ApiResult.error 503
  else if isValidObjectId toy_id = false then ApiResult.error 400
  else
    match st.toys.find? (fun d => d._id == toy_id) with
    | none => ApiResult.error 404
    | some d => ApiResult.ok d

/-- Python truthiness of an optional string (`if category:` in
`list_toys`): false for `None` and for the empty string. -/
def truthyStr : Option String → Bool
  | none => false
  | some s => !(s == "")

/-- ASCII lower-casing of one character (the case folding Python's
`.lower()` and Mongo's `$options: "i"` perform on ASCII names). -/
def lowerChar (c : Char) : Char :=
  if 'A' ≤ c ∧ c ≤ 'Z' then Char.ofNat (c.toNat + 32) else c

/-- A string as a lower-cased character list. -/
def lowerStr (s : String) : List Char :=
  s.toList.map lowerChar

/-- Case-insensitive substring containment of `needle` in `hay`. -/
def containsCI (hay needle : String) : Bool :=
  decide (List.IsInfix (lowerStr needle) (lowerStr hay))

/-- The Mongo filter document built by `list_toys`: optional `category`
equality and an optional case-insensitive `$regex` on `name`. -/
structure FilterDict where
  category : Option String
  nameRegexCI : Option String
deriving DecidableEq, Repr

/-- Modelled from the spec: how one document matches the filter —
"equality/substring filter"; the `{"$regex": q, "$options": "i"}` entry
on `name` is "case-insensitive substring match on name". -/
def matchesFilter (d : ToyDoc) (f : FilterDict) : Bool :=
  (match f.category with
   | none => true
   | some c => d.category == c) &&
  (match f.nameRegexCI with
   | none => true
   | some s => containsCI d.name s)

/-- Modelled from the spec: `database.py`'s
`get_documents(collection, filter_dict, limit)` "returns at most `limit`
documents matching an equality/substring filter" — here for the `toy`
collection. -/
def get_documents (toys : List ToyDoc) (f : FilterDict) (limit : Nat) :
    List ToyDoc :=
  (toys.filter (fun d => matchesFilter d f)).take limit

/-- main.py `list_toys` (`GET /api/toys?category=&q=`): empty list when
`db is None`; otherwise builds `filter_dict` with the truthiness checks
`if category:` and `if q:` and calls `get_documents("toy", filter_dict,
limit=100)`. -/
def list_toys (dbUp : Bool) (st : Store) (category q : Option String) :
    List ToyDoc :=
  if dbUp = false then []
  else
    get_documents st.toys
      { category := if truthyStr category then category else none,
        nameRegexCI := if truthyStr q then q else none } 100

/-- A raw item dict inside an order payload (fields may be absent). -/
structure ItemDict where
  toy_id : Option String
  name : Option String
  price : Option Rat
  quantity : Option Int
  image : Option String
deriving DecidableEq, Repr

/-- main.py `CreateOrder` (FastAPI request model): all customer fields
are plain strings (no email check here), `items` is a raw `List[dict]`,
`shipping` defaults to 0, `notes` optional. -/
structure CreateOrder where
  customer_name : String
  customer_email : String
  customer_address : String
  items : List ItemDict
  subtotal : Rat
  shipping : Rat
  total : Rat
  notes : Option String
deriving DecidableEq, Repr

/-- Raw JSON body of a create-order request. -/
structure OrderPayload where
  customer_name : Option String
  customer_email : Option String
  customer_address : Option String
  items : Option (List ItemDict)
  subtotal : Option Rat
  shipping : Option Rat
  total : Option Rat
  notes : Option String
deriving DecidableEq, Repr

/-- FastAPI's parsing of the request body into `CreateOrder`: required
fields must be present; `shipping` defaults to 0. Failure is HTTP 422. -/
def parseCreateOrder (p : OrderPayload) : Except Unit CreateOrder :=
  match p.customer_name, p.customer_email, p.customer_address, p.items,
        p.subtotal, p.total with
  | some cn, some ce, some ca, some its, some sb, some tt =>
      Except.ok { customer_name := cn, customer_email := ce,
                  customer_address := ca, items := its, subtotal := sb,
                  shipping := p.shipping.getD 0, total := tt,
                  notes := p.notes }
  | _, _, _, _, _, _ => Except.error ()

/-- Splitting a character list at every occurrence of `c` (the
character-level counterpart of Python's `str.split`). -/
def splitOnChar (c : Char) : List Char → List (List Char)
  | [] => [[]]
  | x :: xs =>
      match splitOnChar c xs, decide (x = c) with
      | r, true => [] :: r
      | [], false => [[x]]
      | y :: ys, false => (x :: y) :: ys

/-- Modelled from the spec (pydantic `EmailStr` is an external
collaborator): "Email fields are validated against standard email
syntax" — exactly one `@`, non-empty local part, and a domain containing
an interior dot. -/
def isEmail (s : String) : Bool :=
  match splitOnChar '@' s.toList with
  | [lp, dp] =>
      !lp.isEmpty && !dp.isEmpty && dp.contains '.' &&
      !(dp.head? == some '.') && !(dp.getLast? == some '.')
  | _ => false

/-- pydantic coercion of one raw item dict into `OrderItem`: required
fields present, `price ≥ 0`, `quantity ≥ 1`. -/
def OrderItem.of (d : ItemDict) : Except Unit OrderItem :=
  match d.toy_id, d.name, d.price, d.quantity with
  | some ti, some n, some pr, some qt =>
      if 0 ≤ pr ∧ 1 ≤ qt then
        Except.ok { toy_id := ti, name := n, price := pr, quantity := qt,
                    image := d.image }
      else Except.error ()
  | _, _, _, _ => Except.error ()

/-- schemas.py `Order(**payload.model_dump())`: pydantic validates the
email syntax, every item dict against `OrderItem`, and
`subtotal, shipping, total ≥ 0`. Note there is no constraint relating
`total` to `subtotal + shipping`, and no lookup of current toy prices. -/
def Order.of (c : CreateOrder) : Except Unit Order :=
  match c.items.mapM OrderItem.of with
  | Except.error _ => Except.error ()
  | Except.ok its =>
      if isEmail c.customer_email ∧ 0 ≤ c.subtotal ∧ 0 ≤ c.shipping ∧
         0 ≤ c.total then
        Except.ok { customer_name := c.customer_name,
                    customer_email := c.customer_email,
                    customer_address := c.customer_address, items := its,
                    subtotal := c.subtotal, shipping := c.shipping,
                    total := c.total, notes := c.notes }
      else Except.error ()

/-- main.py `create_order` (`POST /api/orders`), whole request pipeline:
FastAPI body parsing (422), then the handler body — `db is None` check
(503), `if not payload.items` (400), `Order(**payload.model_dump())`
(an escaping `ValidationError` is HTTP 500), then
`create_document("order", order)` with status 201. -/
def create_order (dbUp : Bool) (st : Store) (payload : OrderPayload) :
    ApiResult String × Store :=
  match parseCreateOrder payload with
  | Except.error _ => (ApiResult.error 422, st)
  | Except.ok p =>
    if dbUp = false then (ApiResult.error 503, st)
    else if p.items.isEmpty then (ApiResult.error 400, st)
    else
      match Order.of p with
      | Except.error _ => (ApiResult.error 500, st)
      | Except.ok o =>
          let r := create_document_order st o
          (ApiResult.ok r.1, r.2)

/-- Outcome of `GET /api/seed`. -/
inductive SeedResult where
  | unavailable : SeedResult
  | alreadySeeded : Nat → SeedResult
  | seeded : Nat → SeedResult
deriving DecidableEq, Repr

/-- The fixed sample catalog of main.py `seed_sample_toys`. -/
def sampleToys : List Toy :=
  [{ name := "Cuddly Bear", description := some "Super soft plush bear.",
     price := Rat.divInt 1999 100, category := "Plush",
     image := some "https://images.unsplash.com/photo-1612198185720-2d3a9c5a4f8e",
     rating := Rat.divInt 47 10, in_stock := true },
   { name := "Rainbow Stacking Rings",
     description := some "Classic stacking rings for toddlers.",
     price := Rat.divInt 1499 100, category := "Educational",
     image := some "https://images.unsplash.com/photo-1582582621959-48f5f1d7fca1",
     rating := Rat.divInt 46 10, in_stock := true },
   { name := "STEM Robot Kit",
     description := some "Build and program your own robot.",
     price := Rat.divInt 4999 100, category := "STEM",
     image := some "https://images.unsplash.com/photo-1581090464777-f3220bbe1b8b",
     rating := Rat.divInt 48 10, in_stock := true }]

/-- The best-effort insert loop of `seed_sample_toys`: `ok i` tells
whether the `i`-th `create_document` call succeeds (the source's
`try/except Exception: pass`); failures are skipped and successes
tallied. -/
def seedLoop : List Toy → (Nat → Bool) → Nat → Store → Nat × Store
  | [], _, _, st => (0, st)
  | s :: rest, ok, i, st =>
      if ok i then
        let r := seedLoop rest ok (i + 1) (create_document_toy st s).2
        (r.1 + 1, r.2)
      else seedLoop rest ok (i + 1) st

/-- main.py `seed_sample_toys` (`GET /api/seed`): unavailable when `db is
None`; `count_documents({})` (modelled from the spec's `count` gateway
operation as the collection's size) — if positive, reports
already-seeded with the count and touches nothing; otherwise inserts the
samples best-effort and reports the tally. -/
def seed_sample_toys (dbUp : Bool) (st : Store) (ok : Nat → Bool) :
    SeedResult × Store :=
  if dbUp = false then (SeedResult.unavailable, st)
  else
    let count := st.toys.length
    if count > 0 then (SeedResult.alreadySeeded count, st)
    else
      let r := seedLoop sampleToys ok 0 st
      (SeedResult.seeded r.1, r.2)

/-- The empty store, used for concrete evaluations. -/
def store0 : Store :=
  { toys := [], orders := [], nextId := 0 }

/-- A create-toy body whose `name` is the empty string (all other fields
fine). -/
def pEmptyName : ToyPayload :=
  { name := some "", description := none, price := some 1,
    category := some "T", image := none, rating := none, in_stock := none }

/-- A create-toy body with the `name` field absent. -/
def pNoName : ToyPayload :=
  { name := none, description := none, price := some 1,
    category := some "T", image := none, rating := none, in_stock := none }

/-- A create-toy body with a negative `price`. -/
def pNegPrice : ToyPayload :=
  { name := some "X", description := none, price := some (-1),
    category := some "T", image := none, rating := none, in_stock := none }

/-- The `CreateToy` value FastAPI parses `pNegPrice` into. -/
def cNegPrice : CreateToy :=
  { name := "X", description := none, price := -1, category := "T",
    image := none, rating := Rat.divInt 9 2, in_stock := true }

/-- A well-formed raw order item. -/
def oItem : ItemDict :=
  { toy_id := some "0", name := some "Bear", price := some 10,
    quantity := some 2, image := none }

/-- An order body whose `customer_email` is `"abc"` (not an email). -/
def oPayloadBadEmail : OrderPayload :=
  { customer_name := some "A", customer_email := some "abc",
    customer_address := some "addr", items := some [oItem],
    subtotal := some 10, shipping := none, total := some 10, notes := none }

/-- The `CreateOrder` value FastAPI parses `oPayloadBadEmail` into. -/
def cBadEmail : CreateOrder :=
  { customer_name := "A", customer_email := "abc",
    customer_address := "addr", items := [oItem], subtotal := 10,
    shipping := 0, total := 10, notes := none }

/-- An order body whose `items` list is empty. -/
def oPayloadEmptyItems : OrderPayload :=
  { customer_name := some "A", customer_email := some "a@b.co",
    customer_address := some "addr", items := some [],
    subtotal := some 10, shipping := some 0, total := some 10,
    notes := none }

/-- The `CreateOrder` value FastAPI parses `oPayloadEmptyItems` into. -/
def cEmptyItems : CreateOrder :=
  { customer_name := "A", customer_email := "a@b.co",
    customer_address := "addr", items := [], subtotal := 10,
    shipping := 0, total := 10, notes := none }

/-- A persisted toy document used for list/filter evaluations. -/
def stemDoc : ToyDoc :=
  { name := "STEM Robot Kit", description := none, price := 10,
    category := "STEM", image := none, rating := 1, in_stock := true,
    _id := "0" }

/-- A store holding exactly `stemDoc` (its price is 10). -/
def storeStem : Store :=
  { toys := [stemDoc], orders := [], nextId := 1 }

/-- An order body whose `total` (500) differs from
`subtotal + shipping` (1 + 2) and whose single item claims price 999 for
the toy with id "0", whose current store price is 10. -/
def oPayloadMismatch : OrderPayload :=
  { customer_name := some "A", customer_email := some "a@b.co",
    customer_address := some "addr",
    items := some [{ toy_id := some "0", name := some "STEM Robot Kit",
                     price := some 999, quantity := some 1,
                     image := none }],
    subtotal := some 1, shipping := some 2, total := some 500,
    notes := none }

/-- The `CreateOrder` value FastAPI parses `oPayloadMismatch` into. -/
def cMismatch : CreateOrder :=
  { customer_name := "A", customer_email := "a@b.co",
    customer_address := "addr",
    items := [{ toy_id := some "0", name := some "STEM Robot Kit",
                price := some 999, quantity := some 1, image := none }],
    subtotal := 1, shipping := 2, total := 500, notes := none }

/-- The `Order` value pydantic validates `cMismatch` into. -/
def oMismatch : Order :=
  { customer_name := "A", customer_email := "a@b.co",
    customer_address := "addr",
    items := [{ toy_id := "0", name := "STEM Robot Kit", price := 999,
                quantity := 1, image := none }],
    subtotal := 1, shipping := 2, total := 500, notes := none }

/-- C1 (amended): a create-toy request whose payload is missing the
`name` field, or (when the store is available) has a negative `price`,
fails with a validation error — 422 from FastAPI request parsing or 500
from the `Toy` model's `ValidationError` escaping the handler — and no
document is inserted into the toy collection. (An empty-string `name`,
by contrast, is accepted: see `create_toy_accepts_empty_name`.) -/
theorem create_toy_rejects_missing_name_or_negative_price
    (dbUp : Bool) (st : Store) (payload : ToyPayload)
    (h : payload.name = none ∨
         (dbUp = true ∧ ∃ p, payload.price = some p ∧ p < 0)) :
    ((create_toy dbUp st payload).1 = ApiResult.error 422 ∨
     (create_toy dbUp st payload).1 = ApiResult.error 500) ∧
    (create_toy dbUp st payload).2 = st := by
  rcases payload with ⟨pn, pd, pp, pc, pi, pr, ps⟩
  rcases h with hname | ⟨hdb, p, hp, hneg⟩
  · subst hname
    exact ⟨Or.inl rfl, rfl⟩
  · subst hdb
    simp only at hp
    subst hp
    cases pn with
    | none => exact ⟨Or.inl rfl, rfl⟩
    | some n =>
      cases pc with
      | none => exact ⟨Or.inl rfl, rfl⟩
      | some c =>
        have hnot : ¬ (0 ≤ p) := not_le.mpr hneg
        simp [create_toy, parseCreateToy, Toy.of, hnot]

/-- Witness for C1's theorem at concrete inputs: a body missing `name`
and a body with `price = -1`, both against the empty store. -/
theorem create_toy_rejects_witness :
    (((create_toy true store0 pNoName).1 = ApiResult.error 422 ∨
      (create_toy true store0 pNoName).1 = ApiResult.error 500) ∧
     (create_toy true store0 pNoName).2 = store0) ∧
    (((create_toy true store0 pNegPrice).1 = ApiResult.error 422 ∨
      (create_toy true store0 pNegPrice).1 = ApiResult.error 500) ∧
     (create_toy true store0 pNegPrice).2 = store0) :=
  ⟨create_toy_rejects_missing_name_or_negative_price true store0 pNoName
     (Or.inl rfl),
   create_toy_rejects_missing_name_or_negative_price true store0 pNegPrice
     (Or.inr ⟨rfl, -1, rfl, by decide⟩)⟩

/-- C1 (counterexample): a create-toy body with an empty-string `name`
is NOT rejected — the endpoint answers 201 with the new id and a
document is inserted into the toy collection. -/
theorem create_toy_accepts_empty_name :
    (create_toy true store0 pEmptyName).1 = ApiResult.ok "0" ∧
    (create_toy true store0 pEmptyName).2.toys.length = 1 := by
  decide

/-- C2 (amended): for every request body that parses into the
`CreateToy` request model, the create-toy endpoint answers 503 when the
store is unavailable, before the `Toy` model validation and before any
persistence (the store is returned unchanged, whatever its contents and
whatever the payload's field values). Bodies that fail request-model
parsing, however, are rejected 422 by FastAPI even when the store is
down: see `create_toy_db_down_invalid_payload_is_422`. -/
theorem create_toy_503_precedes_model_validation
    (st : Store) (payload : ToyPayload) (c : CreateToy)
    (hparse : parseCreateToy payload = Except.ok c) :
    create_toy false st payload = (ApiResult.error 503, st) := by
  simp [create_toy, hparse]

/-- Witness for C2's theorem: a parseable body with a negative `price`
(so the `Toy` model would reject it) still gets 503 when the store is
down. -/
theorem create_toy_503_witness :
    create_toy false store0 pNegPrice = (ApiResult.error 503, store0) :=
  create_toy_503_precedes_model_validation store0 pNegPrice cNegPrice rfl

/-- C2 (counterexample): with the store unavailable, a body missing the
required `name` field is answered 422 by FastAPI's request parsing, not
503 — validation of the request model happens before the handler's
store check. -/
theorem create_toy_db_down_invalid_payload_is_422 :
    (create_toy false store0 pNoName).1 = ApiResult.error 422 ∧
    (create_toy false store0 pNoName).1 ≠ ApiResult.error 503 := by
  decide

/-- C3: fetching a toy answers 503 when the store is unavailable; 400
when the store is up but the id is not a well-formed ObjectId — and
this is decided before any store access: the result is 400 for every
store contents; 404 when the id is well-formed but no document carries
it. -/
theorem get_toy_error_contract (st : Store) (toy_id : String) :
    get_toy false st toy_id = ApiResult.error 503 ∧
    (isValidObjectId toy_id = false →
      ∀ s : Store, get_toy true s toy_id = ApiResult.error 400) ∧
    (isValidObjectId toy_id = true →
      st.toys.find? (fun d => d._id == toy_id) = none →
      get_toy true st toy_id = ApiResult.error 404) := by
  refine ⟨rfl, ?_, ?_⟩
  · intro hbad s
    simp [get_toy, hbad]
  · intro hok hnone
    simp [get_toy, hok, hnone]

/-- Witness for C3's theorem: `"not-an-id"` (malformed) and a
well-formed 24-hex id unknown to the empty store. -/
theorem get_toy_error_contract_witness :
    get_toy false store0 "not-an-id" = ApiResult.error 503 ∧
    get_toy true store0 "not-an-id" = ApiResult.error 400 ∧
    get_toy true store0 "0123456789abcdef01234567" = ApiResult.error 404 :=
  ⟨(get_toy_error_contract store0 "not-an-id").1,
   (get_toy_error_contract store0 "not-an-id").2.1 (by decide) store0,
   (get_toy_error_contract store0 "0123456789abcdef01234567").2.2
     (by decide) (by decide)⟩

/-- C4: an order-creation request that parses into the `CreateOrder`
request model with an empty `items` list is rejected 400 (when the
store is available) and, whatever the store's availability, no document
is inserted into the order collection. -/
theorem create_order_empty_items_rejected
    (dbUp : Bool) (st : Store) (payload : OrderPayload) (c : CreateOrder)
    (hparse : parseCreateOrder payload = Except.ok c)
    (hempty : c.items = []) :
    (create_order true st payload).1 = ApiResult.error 400 ∧
    (create_order dbUp st payload).2 = st := by
  constructor
  · simp [create_order, hparse, hempty]
  · cases dbUp with
    | false => simp [create_order, hparse]
    | true => simp [create_order, hparse, hempty]

/-- Witness for C4's theorem: a fully well-formed order body except for
`items = []`, against the empty store. -/
theorem create_order_empty_items_rejected_witness :
    (create_order true store0 oPayloadEmptyItems).1 = ApiResult.error 400 ∧
    (create_order true store0 oPayloadEmptyItems).2 = store0 :=
  create_order_empty_items_rejected true store0 oPayloadEmptyItems
    cEmptyItems rfl rfl

/-- C5 (amended): an order body with non-empty items whose
`customer_email` is not syntactically an email fails the `Order` model
validation inside the handler; the pydantic `ValidationError` escapes
and is surfaced as HTTP 500 (not 422), and no order document is
persisted. -/
theorem create_order_bad_email_500
    (dbUp : Bool) (st : Store) (payload : OrderPayload) (c : CreateOrder)
    (hparse : parseCreateOrder payload = Except.ok c)
    (hne : c.items ≠ []) (hbad : isEmail c.customer_email = false) :
    (create_order true st payload).1 = ApiResult.error 500 ∧
    (create_order dbUp st payload).2 = st := by
  have hne' : c.items.isEmpty = false := by
    cases h : c.items with
    | nil => exact absurd h hne
    | cons a l => rfl
  have hord : Order.of c = Except.error () := by
    unfold Order.of
    cases hm : c.items.mapM OrderItem.of with
    | error e => rfl
    | ok its => simp [hbad]
  constructor
  · simp [create_order, hparse, hne', hord]
  · cases dbUp with
    | false => simp [create_order, hparse]
    | true => simp [create_order, hparse, hne', hord]

/-- Witness for C5's amended theorem: the body with
`customer_email = "abc"` against the empty store. -/
theorem create_order_bad_email_500_witness :
    (create_order true store0 oPayloadBadEmail).1 = ApiResult.error 500 ∧
    (create_order true store0 oPayloadBadEmail).2 = store0 :=
  create_order_bad_email_500 true store0 oPayloadBadEmail cBadEmail rfl
    (by decide) (by decide)

/-- C5 (counterexample): the order body with `customer_email = "abc"`
and one well-formed item is answered 500 — NOT the claimed 422 — and
nothing is persisted: the `ValidationError` raised by
`Order(**payload.model_dump())` inside the handler is an unhandled
server error. -/
theorem create_order_bad_email_not_422 :
    (create_order true store0 oPayloadBadEmail).1 = ApiResult.error 500 ∧
    (create_order true store0 oPayloadBadEmail).1 ≠ ApiResult.error 422 ∧
    (create_order true store0 oPayloadBadEmail).2 = store0 := by
  decide

/-- C6: any document returned by the list-toys endpoint satisfies every
filter that was given as a non-empty parameter (logical AND): its
`category` equals the `category` parameter exactly, and its `name`
contains the `q` parameter as a case-insensitive substring. -/
theorem list_toys_only_matching
    (dbUp : Bool) (st : Store) (category q : Option String) (d : ToyDoc)
    (hd : d ∈ list_toys dbUp st category q) :
    (∀ c, category = some c → c ≠ "" → d.category = c) ∧
    (∀ s, q = some s → s ≠ "" → containsCI d.name s = true) := by
  cases dbUp with
  | false => simp [list_toys] at hd
  | true =>
    rw [list_toys] at hd
    simp only [Bool.true_eq_false, if_false, get_documents] at hd
    have hmem := List.take_subset _ _ hd
    have hmatch := (List.mem_filter.mp hmem).2
    constructor
    · intro c hc hcne
      subst hc
      have hct : truthyStr (some c) = true := by
        simp [truthyStr]
        exact hcne
      simp [matchesFilter, hct] at hmatch
      exact hmatch.1
    · intro s hs hsne
      subst hs
      have hst : truthyStr (some s) = true := by
        simp [truthyStr]
        exact hsne
      simp [matchesFilter, hst] at hmatch
      exact hmatch.2

/-- Witness for C6's theorem: with `category="STEM"` and `q="robot"`,
the document named "STEM Robot Kit" is in the listing, its category is
exactly "STEM", and its name contains "robot" case-insensitively. -/
theorem list_toys_only_matching_witness :
    stemDoc.category = "STEM" ∧ containsCI stemDoc.name "robot" = true :=
  have hd : stemDoc ∈ list_toys true storeStem (some "STEM") (some "robot") := by
    decide
  ⟨(list_toys_only_matching true storeStem (some "STEM") (some "robot")
      stemDoc hd).1 "STEM" rfl (by decide),
   (list_toys_only_matching true storeStem (some "STEM") (some "robot")
      stemDoc hd).2 "robot" rfl (by decide)⟩

/-- C7: the list-toys endpoint never returns more than 100 documents,
whatever the store holds and whatever the filters are. -/
theorem list_toys_at_most_100 (dbUp : Bool) (st : Store)
    (category q : Option String) :
    (list_toys dbUp st category q).length ≤ 100 := by
  cases dbUp with
  | false => simp [list_toys]
  | true =>
    rw [list_toys]
    simp only [Bool.true_eq_false, if_false, get_documents]
    exact List.length_take_le 100 _

/-- C8: the seed routine is idempotent. If the toy collection already
has a positive count it inserts nothing and reports already-seeded with
that count; if the collection is empty and all three inserts succeed it
inserts exactly 3 sample toys and reports `inserted: 3`, so a second
invocation (whatever its insert outcomes would be) reports
already-seeded with count 3 and changes nothing. -/
theorem seed_sample_toys_idempotent (st : Store) (ok ok2 : Nat → Bool) :
    (0 < st.toys.length →
      seed_sample_toys true st ok =
        (SeedResult.alreadySeeded st.toys.length, st)) ∧
    (st.toys = [] → ok 0 = true → ok 1 = true → ok 2 = true →
      (seed_sample_toys true st ok).1 = SeedResult.seeded 3 ∧
      (seed_sample_toys true st ok).2.toys.length = 3 ∧
      seed_sample_toys true (seed_sample_toys true st ok).2 ok2 =
        (SeedResult.alreadySeeded 3, (seed_sample_toys true st ok).2)) := by
  constructor
  · intro hpos
    simp [seed_sample_toys, hpos]
  · intro hnil h0 h1 h2
    rcases st with ⟨toys, orders, nid⟩
    simp only at hnil
    subst hnil
    refine ⟨?_, ?_, ?_⟩ <;>
      simp [seed_sample_toys, seedLoop, sampleToys, create_document_toy,
            h0, h1, h2]

/-- Witness for C8's theorem: seeding the empty store with every insert
succeeding, then seeding again; and seeding a store that already holds
one document. -/
theorem seed_sample_toys_idempotent_witness :
    ((seed_sample_toys true store0 (fun _ => true)).1 =
       SeedResult.seeded 3 ∧
     (seed_sample_toys true store0 (fun _ => true)).2.toys.length = 3 ∧
     seed_sample_toys true (seed_sample_toys true store0 (fun _ => true)).2
         (fun _ => true) =
       (SeedResult.alreadySeeded 3,
        (seed_sample_toys true store0 (fun _ => true)).2)) ∧
    seed_sample_toys true storeStem (fun _ => true) =
      (SeedResult.alreadySeeded 1, storeStem) :=
  ⟨(seed_sample_toys_idempotent store0 (fun _ => true) (fun _ => true)).2
     rfl rfl rfl rfl,
   (seed_sample_toys_idempotent storeStem (fun _ => true)
     (fun _ => true)).1 (by decide)⟩

/-- C9: an order body that parses into `CreateOrder`, passes the `Order`
model validation and has non-empty items is persisted with 201 — the
hypotheses impose no relation among `subtotal`, `shipping` and `total`
and no agreement between item prices and the store's current toy
prices; the payload is trusted as-is. -/
theorem create_order_trusts_payload
    (st : Store) (payload : OrderPayload) (c : CreateOrder) (o : Order)
    (hparse : parseCreateOrder payload = Except.ok c)
    (hne : c.items ≠ []) (hvalid : Order.of c = Except.ok o) :
    (create_order true st payload).1 = ApiResult.ok (genId st.nextId) ∧
    (create_order true st payload).2.orders =
      st.orders ++ [{ o with _id := genId st.nextId }] := by
  have hne' : c.items.isEmpty = false := by
    cases h : c.items with
    | nil => exact absurd h hne
    | cons a l => rfl
  constructor <;>
    simp [create_order, hparse, hne', hvalid, create_document_order]

/-- Witness for C9's theorem: an order whose `total` (500) differs from
`subtotal + shipping` (1 + 2 = 3) and whose item claims price 999 while
the referenced toy's current store price is 10 — it is accepted and
persisted. -/
theorem create_order_trusts_payload_witness :
    oMismatch.total ≠ oMismatch.subtotal + oMismatch.shipping ∧
    (∀ d, d ∈ storeStem.toys → d.price ≠ 999) ∧
    (create_order true storeStem oPayloadMismatch).1 =
      ApiResult.ok (genId storeStem.nextId) ∧
    (create_order true storeStem oPayloadMismatch).2.orders =
      storeStem.orders ++ [{ oMismatch with _id := genId storeStem.nextId }] :=
  have h := create_order_trusts_payload storeStem oPayloadMismatch
    cMismatch oMismatch rfl (by decide) rfl
  ⟨by norm_num [oMismatch], by decide, h.1, h.2⟩

/-- C10: a list-toys request in which `category` or `q` is present but
equal to the empty string behaves exactly as if that parameter were
absent — the Python truthiness test `if category:` / `if q:` skips the
corresponding filter. -/
theorem list_toys_empty_param_like_absent (dbUp : Bool) (st : Store)
    (category q : Option String) :
    list_toys dbUp st (some "") q = list_toys dbUp st none q ∧
    list_toys dbUp st category (some "") = list_toys dbUp st category none := by
  constructor <;> simp [list_toys, truthyStr]
